import Mathlib

/-!
Verification of the per-user OAuth credential lifecycle of the
student-life-coach Flask application (`src/app.py`, with `src/test.py` an
earlier iteration of the same routes).

Shallow embedding conventions:
* Python strings are modelled as `List Char` (named `Str` below), so that
  `str.replace` on single-character patterns is a `map`, and
  `str.startswith` / `str.endswith` are `List.isPrefixOf` / `List.isSuffixOf`.
* The on-disk token-file store (`token_<safe_email>.pickle` files in the
  working directory) is modelled as a function from filename to
  `Option CredentialRecord`.
* The Flask session is a record with the two keys the code uses
  (`google_email`, `state`), each an optional string.
* Network effects (token exchange, refresh, profile lookup, file write,
  database insert) are modelled by boolean oracles saying whether the
  external call succeeds; the embedded functions are otherwise a direct
  transcription of the route handlers' control flow.
-/

/-- Python strings, modelled as lists of characters. -/
abbrev Str := List Char

/-- Stored OAuth credentials, as `google.oauth2.credentials.Credentials` is
used by the code: validity flag, expiry flag, presence of a refresh token,
and granted scopes. -/
structure CredentialRecord where
  valid : Bool
  expired : Bool
  refresh_token : Bool
  scopes : List Str
  deriving DecidableEq, Repr

/-- The on-disk store of pickled credentials: a map from filename to the
record pickled in that file (`none` = no such file). -/
def Store := Str → Option CredentialRecord

instance : Inhabited Store := ⟨fun _ => none⟩

/-- The empty working directory: no token files. -/
def Store.empty : Store := fun _ => none

/-- Write a record to a filename (models `pickle.dump(creds, f)` into the
file opened with mode `wb`, an overwrite). -/
def Store.put (st : Store) (f : Str) (r : CredentialRecord) : Store :=
  fun g => if g = f then some r else st g

/-- The Flask session, restricted to the keys the Google-auth routes use. -/
structure Session where
  google_email : Option Str
  state : Option Str
  deriving DecidableEq, Repr

/-- `str.replace(a, b)` for one-character `a`, `b`, as the code uses it. -/
def pyReplaceChar (s : Str) (a b : Char) : Str :=
  s.map (fun c => if c = a then b else c)

/-- `src/app.py` lines 105-107 (`get_token_filename`): sanitise the email
(`@` and `.` become `_`, `None` becomes `anonymous`) and wrap it as
`token_<safe>.pickle`. -/
def get_token_filename (email : Option Str) : Str :=
  "token_".toList
    ++ pyReplaceChar (pyReplaceChar (email.getD "anonymous".toList) '@' '_') '.' '_'
    ++ ".pickle".toList

/-- The filename filter of `clear_old_tokens` (`src/app.py` line 131):
`file.startswith("token_") and file.endswith(".pickle")`. -/
def isTokenFile (f : Str) : Bool :=
  ("token_".toList).isPrefixOf f && (".pickle".toList).isSuffixOf f

/-- `src/app.py` lines 129-135 (`clear_old_tokens`): delete every file in
the working directory matching `token_*.pickle` (removal errors ignored). -/
def clear_old_tokens (st : Store) : Store :=
  fun f => if isTokenFile f then none else st f

/-- The scope list `SCOPES` of `src/app.py` lines 51-56. -/
def SCOPES : List Str :=
  [ "https://www.googleapis.com/auth/calendar".toList
  , "https://www.googleapis.com/auth/userinfo.email".toList
  , "https://www.googleapis.com/auth/userinfo.profile".toList
  , "openid".toList ]

/-- Outcome of `get_google_calendar_service` (`resolve` in the spec). -/
inductive ResolveResult where
  /-- A calendar service handle wrapping these credentials was built. -/
  | handle (r : CredentialRecord)
  /-- The function returned `None` (callers must start a consent flow). -/
  | needsConsent
  /-- `creds.refresh(Request())` raised and the exception propagated out of
  the function (the code has no try/except around the refresh). -/
  | refreshRaised
  deriving DecidableEq, Repr

/-- Full outcome of a `resolve` call: result, resulting store, and how many
refresh network calls were made. -/
structure ResolveOut where
  result : ResolveResult
  store : Store
  refreshCalls : Nat

/-- Effect of a successful `creds.refresh(Request())` on the in-memory
credentials: they become valid and unexpired. -/
def refreshCreds (r : CredentialRecord) : CredentialRecord :=
  { r with valid := true, expired := false }

/-- `src/app.py` lines 110-126 (`get_google_calendar_service`), the spec's
`resolve`: returns `None` when Google auth is disabled, when the session
has no email, or when the credentials are absent/unusable and cannot be
refreshed; refreshes expired credentials that have a refresh token
(`refreshOk` is the oracle for that network call, and a failed refresh
raises); otherwise builds the service. The store is never written. -/
def get_google_calendar_service (enabled refreshOk : Bool) (sess : Session)
    (st : Store) : ResolveOut :=
  if !enabled then ⟨.needsConsent, st, 0⟩
  else
    match sess.google_email with
    | none => ⟨.needsConsent, st, 0⟩
    | some email =>
      match st (get_token_filename (some email)) with
      | none => ⟨.needsConsent, st, 0⟩
      | some creds =>
        if !creds.valid then
          if creds.expired && creds.refresh_token then
            if refreshOk then ⟨.handle (refreshCreds creds), st, 1⟩
            else ⟨.refreshRaised, st, 1⟩
          else ⟨.needsConsent, st, 0⟩
        else ⟨.handle creds, st, 0⟩

/-- Outcome of the `/authorize` route (`beginConsent`). -/
inductive AuthorizeResult where
  /-- Flash an error: `credentials.json` is missing. -/
  | disabled
  /-- Redirect the browser to the provider's authorization URL; the state
  embedded in that URL is recorded here. -/
  | redirectToProvider (url_state : Str)
  deriving DecidableEq, Repr

/-- `src/app.py` lines 183-194 (`authorize`), the spec's `beginConsent`:
when enabled, deletes ALL `token_*.pickle` files via `clear_old_tokens`,
generates a fresh anti-forgery state (`freshState` models the value
produced by `flow.authorization_url`), stores it in `session["state"]`,
and redirects to the provider. -/
def authorize (enabled : Bool) (freshState : Str) (sess : Session)
    (st : Store) : AuthorizeResult × Session × Store :=
  if !enabled then (.disabled, sess, st)
  else
    let st' := clear_old_tokens st
    (.redirectToProvider freshState, { sess with state := some freshState }, st')

/-- Error classes that the callback's `except` clause can catch, labelled
by which step raised. -/
inductive CbErr where
  /-- `MismatchingStateError` from the token exchange's state check. -/
  | stateMismatch
  /-- The provider rejected the code exchange or the profile lookup failed. -/
  | exchangeError
  /-- Writing the pickle file raised (`StorageError` in the spec). -/
  | storageError
  /-- The database insert of the `User` row raised. -/
  | dbError
  deriving DecidableEq, Repr

/-- Outcome of the `/oauth2callback` route (`completeConsent`). -/
inductive CallbackResult where
  /-- Flash an error: `credentials.json` is missing. -/
  | disabled
  /-- Login succeeded and was flashed for this email. -/
  | success (email : Str)
  /-- The `except` clause caught an exception and flashed it. -/
  | error (e : CbErr)
  deriving DecidableEq, Repr

/-- Oracles for the external effects of the callback: whether the code
exchange plus profile lookup succeed, the credentials and email they
return, whether the pickle write succeeds, and whether the DB insert
succeeds. -/
structure CallbackOracles where
  exchangeOk : Bool
  creds : CredentialRecord
  email : Str
  writeOk : Bool
  dbOk : Bool
  deriving DecidableEq, Repr

/-- `build_flow` (`src/app.py` lines 96-102) sets the flow's state only
under Python truthiness (`if state:`): `None` and the empty string leave
the flow's state unset. -/
def build_flow_state (state : Option Str) : Option Str :=
  match state with
  | some s => if s = [] then none else some s
  | none => none

/-- The steps of the callback after the state check has passed: exchange
the code, set `session["google_email"]`, pickle the credentials, insert
the `User` row; the first failing step raises into the `except` clause,
keeping all effects already performed (`src/app.py` lines 205-216). -/
def oauth2callback_after_state (o : CallbackOracles) (sess : Session)
    (st : Store) : CallbackResult × Session × Store :=
  if !o.exchangeOk then (.error .exchangeError, sess, st)
  else
    let sess' := { sess with google_email := some o.email }
    if !o.writeOk then (.error .storageError, sess', st)
    else
      let st' := st.put (get_token_filename (some o.email)) o.creds
      if !o.dbOk then (.error .dbError, sess', st')
      else (.success o.email, sess', st')

/-- `src/app.py` lines 197-219 (`oauth2callback`), the spec's
`completeConsent`. The state check is the one `oauthlib` performs inside
`flow.fetch_token(authorization_response=request.url)`: it raises
`MismatchingStateError` exactly when the flow has a state set and it
differs from the `state` query parameter of the callback URL
(`urlState`); a flow whose state is unset (session state absent or empty,
see `build_flow_state`) skips the check. The session's `state` key is
never removed. -/
def oauth2callback (enabled : Bool) (urlState : Str) (o : CallbackOracles)
    (sess : Session) (st : Store) : CallbackResult × Session × Store :=
  if !enabled then (.disabled, sess, st)
  else
    match build_flow_state sess.state with
    | some s =>
      if s ≠ urlState then (.error .stateMismatch, sess, st)
      else oauth2callback_after_state o sess st
    | none => oauth2callback_after_state o sess st

/-- `src/app.py` lines 222-226 (`logout_google`), the spec's `invalidate`:
pop `google_email` from the session; the store is untouched. -/
def logout_google (sess : Session) (st : Store) : Session × Store :=
  ({ sess with google_email := none }, st)

/-- One iteration of the import loop of `/upload` (`src/app.py` lines
290-308): the row's `try` block either completes (event inserted,
`successes += 1`) or raises (`failures += 1`). Each row is abstracted to
the boolean saying whether its block completed. -/
def upload_step (acc : Nat × Nat) (ok : Bool) : Nat × Nat :=
  if ok then (acc.1 + 1, acc.2) else (acc.1, acc.2 + 1)

/-- The counter loop of `/upload` starting from `successes, failures = 0, 0`
(`src/app.py` lines 288-308). -/
def upload_count (rows : List Bool) : Nat × Nat :=
  rows.foldl upload_step (0, 0)

/-- The flash message of `src/app.py` line 309. -/
def upload_message (successes failures : Nat) : Str :=
  "✅ Import xong! Thành công: ".toList ++ (toString successes).toList
    ++ ", lỗi: ".toList ++ (toString failures).toList ++ ".".toList

/-- The row-processing tail of the `/upload` POST handler (`src/app.py`
lines 288-310): run the counter loop over the parsed rows and flash the
final message reporting both counts. -/
def upload (rows : List Bool) : Str × Nat × Nat :=
  let c := upload_count rows
  (upload_message c.1 c.2, c.1, c.2)

/-! ## Shared concrete values for witnesses and counterexamples -/

/-- The identity of the spec's worked scenario. -/
def aliceEmail : Str := "alice@example.com".toList

/-- A second, distinct identity. -/
def bobEmail : Str := "bob@example.com".toList

/-- A concrete anti-forgery state value. -/
def stateA : Str := "state-abc".toList

/-- A different concrete state value. -/
def stateB : Str := "state-xyz".toList

/-- A valid, unexpired record with the full granted scope set. -/
def recValid : CredentialRecord := ⟨true, false, true, SCOPES⟩

/-- An invalid, expired record with no refresh token. -/
def recExpiredNoRefresh : CredentialRecord := ⟨false, true, false, SCOPES⟩

/-- A valid record granted only the calendar scope (stale relative to
`SCOPES`). -/
def recStale : CredentialRecord :=
  ⟨true, false, true, ["https://www.googleapis.com/auth/calendar".toList]⟩

/-- A session logged in as alice with no pending state. -/
def sessAlice : Session := ⟨some aliceEmail, none⟩

/-- A store holding only alice's expired refresh-less record. -/
def storeExpired : Store :=
  Store.empty.put (get_token_filename (some aliceEmail)) recExpiredNoRefresh

/-- A store holding only bob's valid record. -/
def storeBob : Store :=
  Store.empty.put (get_token_filename (some bobEmail)) recValid

/-- A store holding only alice's stale (under-scoped) record. -/
def storeStale : Store :=
  Store.empty.put (get_token_filename (some aliceEmail)) recStale

/-- Callback oracles in which every external step succeeds. -/
def oraclesOk : CallbackOracles := ⟨true, recValid, aliceEmail, true, true⟩

/-- Callback oracles in which only the pickle write fails. -/
def oraclesWriteFail : CallbackOracles := ⟨true, recValid, aliceEmail, false, true⟩

/-! ## Helper lemmas -/

/-- Every filename `get_token_filename` produces matches the
`token_*.pickle` pattern tested by `clear_old_tokens`. -/
theorem isTokenFile_get_token_filename (e : Option Str) :
    isTokenFile (get_token_filename e) = true := by
  unfold isTokenFile get_token_filename
  rw [Bool.and_eq_true]
  constructor
  · rw [List.isPrefixOf_iff_prefix]
    exact List.prefix_append _ _
  · rw [List.isSuffixOf_iff_suffix]
    exact List.suffix_append _ _

/-- The post-state-check part of the callback never touches the session's
`state` key. -/
theorem after_state_session_state (o : CallbackOracles) (sess : Session)
    (st : Store) :
    (oauth2callback_after_state o sess st).2.1.state = sess.state := by
  cases hex : o.exchangeOk <;> cases hw : o.writeOk <;> cases hdb : o.dbOk <;>
    simp [oauth2callback_after_state, hex, hw, hdb]

/-- The post-state-check part of the callback never reports a state
mismatch. -/
theorem after_state_not_mismatch (o : CallbackOracles) (sess : Session)
    (st : Store) :
    (oauth2callback_after_state o sess st).1 ≠ CallbackResult.error .stateMismatch := by
  cases hex : o.exchangeOk <;> cases hw : o.writeOk <;> cases hdb : o.dbOk <;>
    simp [oauth2callback_after_state, hex, hw, hdb]

/-- The post-state-check part of the callback writes at most the slot of
the email the profile lookup returned. -/
theorem after_state_frame (o : CallbackOracles) (sess : Session) (st : Store)
    (k : Str) (hk : k ≠ get_token_filename (some o.email)) :
    (oauth2callback_after_state o sess st).2.2 k = st k := by
  cases hex : o.exchangeOk <;> cases hw : o.writeOk <;> cases hdb : o.dbOk <;>
    simp [oauth2callback_after_state, hex, hw, hdb, Store.put, hk]

/-! ## Claim C8 -/

/-- C8: for every identity with no stored CredentialRecord, resolve
(`get_google_calendar_service` with the session logged in as that
identity) returns NeedsConsent, performs no refresh network call, and
leaves the store unchanged. -/
theorem C8_resolve_no_record (enabled refreshOk : Bool) (sess : Session)
    (st : Store) (email : Str)
    (hemail : sess.google_email = some email)
    (habs : st (get_token_filename (some email)) = none) :
    (get_google_calendar_service enabled refreshOk sess st).result = .needsConsent ∧
    (get_google_calendar_service enabled refreshOk sess st).refreshCalls = 0 ∧
    (get_google_calendar_service enabled refreshOk sess st).store = st := by
  cases enabled <;> simp [get_google_calendar_service, hemail, habs]

/-- Witness for C8 at a concrete input: alice is logged in and the store
is empty. -/
theorem C8_resolve_no_record_witness :
    (sessAlice.google_email = some aliceEmail ∧
      Store.empty (get_token_filename (some aliceEmail)) = none) ∧
    ((get_google_calendar_service true true sessAlice Store.empty).result = .needsConsent ∧
     (get_google_calendar_service true true sessAlice Store.empty).refreshCalls = 0 ∧
     (get_google_calendar_service true true sessAlice Store.empty).store = Store.empty) :=
  ⟨⟨rfl, rfl⟩, C8_resolve_no_record true true sessAlice Store.empty aliceEmail rfl rfl⟩

/-! ## Claim C10 -/

/-- The import-loop invariant: starting the counter fold at `(a, b)`, the
two counters always sum to `a + b` plus the number of rows processed. -/
theorem upload_count_sum (rows : List Bool) (a b : Nat) :
    ((rows.foldl upload_step (a, b)).1 + (rows.foldl upload_step (a, b)).2)
      = a + b + rows.length := by
  induction rows generalizing a b with
  | nil => simp
  | cons head tail ih =>
    cases head <;> simp [upload_step, ih] <;> omega

/-- C10: each data row of the upload loop increments exactly one of the
two counters (appending one more row bumps exactly the counter matching
its outcome); hence successes plus failures equals the number of rows, and
the final flash message is built from both counts. -/
theorem C10_upload_counts (rows : List Bool) (b : Bool) :
    (upload rows).2.1 + (upload rows).2.2 = rows.length ∧
    upload_count (rows ++ [b]) =
      (if b then ((upload_count rows).1 + 1, (upload_count rows).2)
       else ((upload_count rows).1, (upload_count rows).2 + 1)) ∧
    (upload rows).1 = upload_message (upload rows).2.1 (upload rows).2.2 := by
  refine ⟨?_, ?_, rfl⟩
  · simpa [upload, upload_count] using upload_count_sum rows 0 0
  · cases b <;> simp [upload_count, List.foldl_append, upload_step]

/-! ## Claim C6 -/

/-- C6 is false as stated: invalidate (`logout_google`) does not delete
the identity's stored CredentialRecord — after logging alice out, her
record is still present in the store. -/
theorem C6_counterexample :
    (logout_google sessAlice storeExpired).2 (get_token_filename (some aliceEmail))
      = some recExpiredNoRefresh ∧
    (logout_google sessAlice storeExpired).2 (get_token_filename (some aliceEmail))
      ≠ none := by
  constructor <;> decide

/-- C6 amended: invalidate clears the identity from the session and leaves
the store untouched (the record is not deleted); an immediately following
resolve nevertheless returns NeedsConsent, because resolve reads the
identity from the now-cleared session. -/
theorem C6_invalidate_clears_session (enabled refreshOk : Bool)
    (sess : Session) (st : Store) :
    (logout_google sess st).1.google_email = none ∧
    (logout_google sess st).2 = st ∧
    (get_google_calendar_service enabled refreshOk (logout_google sess st).1
      (logout_google sess st).2).result = .needsConsent := by
  refine ⟨rfl, rfl, ?_⟩
  cases enabled <;> simp [get_google_calendar_service, logout_google]

/-! ## Claim C9 -/

/-- C9 is false as stated: the common end state of one or two invalidate
calls is not "record Absent" — invalidating alice twice still leaves her
stored record in place. -/
theorem C9_counterexample :
    (logout_google (logout_google sessAlice storeExpired).1
        (logout_google sessAlice storeExpired).2).2
      (get_token_filename (some aliceEmail)) ≠ none := by decide

/-- C9 amended: invalidate is idempotent — a second call yields exactly
the same end state as the first and produces no error — but that end state
keeps the stored record; only the session identity is cleared. -/
theorem C9_invalidate_idempotent (sess : Session) (st : Store) :
    logout_google (logout_google sess st).1 (logout_google sess st).2
      = logout_google sess st ∧
    (logout_google sess st).1.google_email = none ∧
    (logout_google sess st).2 = st :=
  ⟨rfl, rfl, rfl⟩

/-- When the session state is present, nonempty and equal to the state in
the callback URL, the state check passes and the callback reduces to its
post-state-check steps. -/
theorem callback_match_passes (urlState : Str) (o : CallbackOracles)
    (sess : Session) (st : Store)
    (hs : sess.state = some urlState) (hne : urlState ≠ []) :
    oauth2callback true urlState o sess st = oauth2callback_after_state o sess st := by
  simp [oauth2callback, build_flow_state, hs, hne]

/-- The callback never modifies the session's `state` key: it is read but
never popped. -/
theorem callback_session_state (enabled : Bool) (urlState : Str)
    (o : CallbackOracles) (sess : Session) (st : Store) :
    (oauth2callback enabled urlState o sess st).2.1.state = sess.state := by
  cases enabled
  · rfl
  · cases hb : build_flow_state sess.state with
    | none => simp [oauth2callback, hb, after_state_session_state]
    | some s =>
      by_cases hsu : s = urlState
      · simp [oauth2callback, hb, hsu, after_state_session_state]
      · simp [oauth2callback, hb, hsu]

/-- The callback writes at most the slot of the email resolved by the
profile lookup: every other slot is unchanged. -/
theorem callback_frame (enabled : Bool) (urlState : Str)
    (o : CallbackOracles) (sess : Session) (st : Store) (k : Str)
    (hk : k ≠ get_token_filename (some o.email)) :
    (oauth2callback enabled urlState o sess st).2.2 k = st k := by
  cases enabled
  · rfl
  · cases hb : build_flow_state sess.state with
    | none => simp [oauth2callback, hb, after_state_frame o sess st k hk]
    | some s =>
      by_cases hsu : s = urlState
      · simp [oauth2callback, hb, hsu, after_state_frame o sess st k hk]
      · simp [oauth2callback, hb, hsu]

/-- `get_google_calendar_service` never writes the store (in particular it
never deletes a record). -/
theorem resolve_store_unchanged (enabled refreshOk : Bool) (sess : Session)
    (st : Store) :
    (get_google_calendar_service enabled refreshOk sess st).store = st := by
  unfold get_google_calendar_service
  cases enabled
  · rfl
  · cases hge : sess.google_email with
    | none => simp [hge]
    | some email =>
      cases hrec : st (get_token_filename (some email)) with
      | none => simp [hge, hrec]
      | some creds =>
        cases hv : creds.valid <;> cases he : creds.expired <;>
          cases hr : creds.refresh_token <;> cases refreshOk <;>
          simp [hge, hrec, hv, he, hr]

/-! ## Claim C1 -/

/-- C1 is false as stated: when the session's stored state is absent, the
`if state:` guard in `build_flow` leaves the flow's state unset, oauthlib
skips the state comparison entirely, and the callback does not fail — it
succeeds and stores a CredentialRecord. -/
theorem C1_counterexample :
    (oauth2callback true stateA oraclesOk ⟨none, none⟩ Store.empty).1
      = .success aliceEmail ∧
    (oauth2callback true stateA oraclesOk ⟨none, none⟩ Store.empty).2.2
      (get_token_filename (some aliceEmail)) = some recValid := by
  constructor <;> decide

/-- C1 amended: when the session state is present and nonempty and does
not equal the state encoded in the callback URL, the callback fails with
the state-mismatch error and leaves session and store unchanged, so no
CredentialRecord is stored for any identity; when the session state is
absent (or empty), the state check is skipped rather than failing. -/
theorem C1_state_mismatch (urlState s : Str) (o : CallbackOracles)
    (sess : Session) (st : Store)
    (hs : sess.state = some s) (hne : s ≠ []) (hmm : s ≠ urlState) :
    oauth2callback true urlState o sess st = (.error .stateMismatch, sess, st) := by
  simp [oauth2callback, build_flow_state, hs, hne, hmm]

/-- Witness for the amended C1 at a concrete input: session state
`state-abc`, callback URL state `state-xyz`. -/
theorem C1_state_mismatch_witness :
    ((⟨none, some stateA⟩ : Session).state = some stateA ∧
      stateA ≠ [] ∧ stateA ≠ stateB) ∧
    oauth2callback true stateB oraclesOk ⟨none, some stateA⟩ Store.empty
      = (.error .stateMismatch, ⟨none, some stateA⟩, Store.empty) :=
  ⟨⟨rfl, by decide, by decide⟩,
    C1_state_mismatch stateB stateA oraclesOk ⟨none, some stateA⟩ Store.empty
      rfl (by decide) (by decide)⟩

/-! ## Claim C4 -/

/-- C4 is false as stated: with a matching state, a successful exchange
and a failing record write, the callback flashes a storage error but the
session's identity field has already been set. -/
theorem C4_counterexample :
    (oauth2callback true stateA oraclesWriteFail ⟨none, some stateA⟩ Store.empty).1
      = .error .storageError ∧
    (oauth2callback true stateA oraclesWriteFail ⟨none, some stateA⟩
        Store.empty).2.1.google_email = some aliceEmail := by
  constructor <;> decide

/-- C4 amended: when the state check passes, the exchange succeeds and the
record write fails, the callback reports a storage error and leaves the
store unchanged, but the session's identity field has already been set to
the resolved email — the assignment precedes the write and is not rolled
back. -/
theorem C4_storage_failure (urlState : Str) (o : CallbackOracles)
    (sess : Session) (st : Store)
    (hs : sess.state = some urlState) (hne : urlState ≠ [])
    (hex : o.exchangeOk = true) (hw : o.writeOk = false) :
    oauth2callback true urlState o sess st
      = (.error .storageError, { sess with google_email := some o.email }, st) := by
  rw [callback_match_passes urlState o sess st hs hne]
  simp [oauth2callback_after_state, hex, hw]

/-- Witness for the amended C4 at a concrete input: matching state, write
failure; the resulting session is marked logged in as alice. -/
theorem C4_storage_failure_witness :
    ((⟨none, some stateA⟩ : Session).state = some stateA ∧ stateA ≠ [] ∧
      oraclesWriteFail.exchangeOk = true ∧ oraclesWriteFail.writeOk = false) ∧
    oauth2callback true stateA oraclesWriteFail ⟨none, some stateA⟩ Store.empty
      = (.error .storageError, ⟨some aliceEmail, some stateA⟩, Store.empty) :=
  ⟨⟨rfl, by decide, rfl, rfl⟩,
    C4_storage_failure stateA oraclesWriteFail ⟨none, some stateA⟩ Store.empty
      rfl (by decide) rfl rfl⟩

/-! ## Claim C7 -/

/-- C7 is false as stated: the callback does not consume the session
state — after a successful callback the same state value is still bound to
the session, and a second callback carrying that same state is accepted
and succeeds again. -/
theorem C7_counterexample :
    (oauth2callback true stateA oraclesOk ⟨none, some stateA⟩ Store.empty).2.1.state
      = some stateA ∧
    (oauth2callback true stateA oraclesOk
        (oauth2callback true stateA oraclesOk ⟨none, some stateA⟩ Store.empty).2.1
        (oauth2callback true stateA oraclesOk ⟨none, some stateA⟩ Store.empty).2.2).1
      = .success aliceEmail := by
  constructor <;> decide

/-- C7 amended: the session's state key survives the callback unchanged
(it is read, never popped), so a state value that passed the check once is
accepted again by any later callback carrying the same state value; the
state is only invalidated when a new authorize overwrites it. -/
theorem C7_state_not_consumed (urlState : Str) (o o2 : CallbackOracles)
    (sess : Session) (st : Store)
    (hs : sess.state = some urlState) (hne : urlState ≠ []) :
    (oauth2callback true urlState o sess st).2.1.state = some urlState ∧
    (oauth2callback true urlState o2
        (oauth2callback true urlState o sess st).2.1
        (oauth2callback true urlState o sess st).2.2).1
      ≠ CallbackResult.error .stateMismatch := by
  have h1 : (oauth2callback true urlState o sess st).2.1.state = some urlState := by
    rw [callback_session_state, hs]
  refine ⟨h1, ?_⟩
  rw [callback_match_passes urlState o2 _ _ h1 hne]
  exact after_state_not_mismatch o2 _ _

/-- Witness for the amended C7 at a concrete input: the state survives a
fully successful callback and is accepted again. -/
theorem C7_state_not_consumed_witness :
    ((⟨none, some stateA⟩ : Session).state = some stateA ∧ stateA ≠ []) ∧
    ((oauth2callback true stateA oraclesOk ⟨none, some stateA⟩ Store.empty).2.1.state
        = some stateA ∧
      (oauth2callback true stateA oraclesOk
          (oauth2callback true stateA oraclesOk ⟨none, some stateA⟩ Store.empty).2.1
          (oauth2callback true stateA oraclesOk ⟨none, some stateA⟩ Store.empty).2.2).1
        ≠ CallbackResult.error .stateMismatch) :=
  ⟨⟨rfl, by decide⟩,
    C7_state_not_consumed stateA oraclesOk oraclesOk ⟨none, some stateA⟩ Store.empty
      rfl (by decide)⟩

/-! ## Claim C2 -/

/-- C2 is false as stated: an expired record with no refresh token makes
resolve return NeedsConsent, but the record is not deleted — it is still
in the store afterwards. -/
theorem C2_counterexample :
    (get_google_calendar_service true true sessAlice storeExpired).result
      = .needsConsent ∧
    (get_google_calendar_service true true sessAlice storeExpired).store
      (get_token_filename (some aliceEmail)) = some recExpiredNoRefresh := by
  constructor <;> decide

/-- C2 amended: for an identity whose stored record is expired and
invalid, resolve with no refresh token returns NeedsConsent while leaving
the record in place (so a subsequent resolve again returns NeedsConsent),
and resolve with a refresh token whose refresh exchange fails raises the
refresh exception (no NeedsConsent result) while also leaving the record
in place; in neither case is the CredentialRecord deleted. -/
theorem C2_resolve_expired (refreshOk : Bool) (sess : Session) (st : Store)
    (email : Str) (creds : CredentialRecord)
    (hemail : sess.google_email = some email)
    (hrec : st (get_token_filename (some email)) = some creds)
    (hvalid : creds.valid = false) (hexp : creds.expired = true) :
    (creds.refresh_token = false →
      (get_google_calendar_service true refreshOk sess st).result = .needsConsent ∧
      (get_google_calendar_service true refreshOk sess st).store = st ∧
      (get_google_calendar_service true refreshOk sess
        (get_google_calendar_service true refreshOk sess st).store).result
          = .needsConsent) ∧
    (creds.refresh_token = true → refreshOk = false →
      (get_google_calendar_service true refreshOk sess st).result = .refreshRaised ∧
      (get_google_calendar_service true refreshOk sess st).store = st) := by
  constructor
  · intro hrt
    simp [get_google_calendar_service, hemail, hrec, hvalid, hexp, hrt]
  · intro hrt hro
    subst hro
    simp [get_google_calendar_service, hemail, hrec, hvalid, hexp, hrt]

/-- Witness for the amended C2 at a concrete input: alice's record is
expired with no refresh token. -/
theorem C2_resolve_expired_witness :
    (sessAlice.google_email = some aliceEmail ∧
      storeExpired (get_token_filename (some aliceEmail)) = some recExpiredNoRefresh ∧
      recExpiredNoRefresh.valid = false ∧ recExpiredNoRefresh.expired = true) ∧
    ((recExpiredNoRefresh.refresh_token = false →
       (get_google_calendar_service true false sessAlice storeExpired).result
          = .needsConsent ∧
       (get_google_calendar_service true false sessAlice storeExpired).store
          = storeExpired ∧
       (get_google_calendar_service true false sessAlice
         (get_google_calendar_service true false sessAlice storeExpired).store).result
          = .needsConsent) ∧
     (recExpiredNoRefresh.refresh_token = true → false = false →
       (get_google_calendar_service true false sessAlice storeExpired).result
          = .refreshRaised ∧
       (get_google_calendar_service true false sessAlice storeExpired).store
          = storeExpired)) :=
  ⟨⟨rfl, by decide, rfl, rfl⟩,
    C2_resolve_expired false sessAlice storeExpired aliceEmail recExpiredNoRefresh
      rfl (by decide) rfl rfl⟩

/-! ## Claim C3 -/

/-- C3 is false as stated: distinct identity strings can share a storage
slot (sanitisation maps both `a.b` and `a@b` to `token_a_b.pickle`), and
beginConsent (`authorize`) run by alice deletes bob's stored record. -/
theorem C3_counterexample :
    get_token_filename (some "a.b".toList) = get_token_filename (some "a@b".toList) ∧
    "a.b".toList ≠ "a@b".toList ∧
    storeBob (get_token_filename (some bobEmail)) = some recValid ∧
    (authorize true stateA sessAlice storeBob).2.2
      (get_token_filename (some bobEmail)) = none := by
  refine ⟨by decide, by decide, by decide, by decide⟩

/-- C3 amended: completeConsent writes only the slot of its resolved
email, and resolve and invalidate never write the store at all — so these
three operations leave every other identity's slot unchanged, provided the
two identities map to different filenames; beginConsent, by contrast,
deletes every `token_*.pickle` slot regardless of identity, and distinct
identity strings can collide on one slot. -/
theorem C3_frame (enabled refreshOk : Bool) (urlState : Str)
    (o : CallbackOracles) (sess : Session) (st : Store) (k : Str)
    (hk : k ≠ get_token_filename (some o.email)) :
    (oauth2callback enabled urlState o sess st).2.2 k = st k ∧
    (get_google_calendar_service enabled refreshOk sess st).store = st ∧
    (logout_google sess st).2 = st :=
  ⟨callback_frame enabled urlState o sess st k hk,
    resolve_store_unchanged enabled refreshOk sess st, rfl⟩

/-- Witness for the amended C3 at a concrete input: bob's slot differs
from alice's and is untouched by alice's callback, resolve and logout. -/
theorem C3_frame_witness :
    get_token_filename (some bobEmail) ≠ get_token_filename (some oraclesOk.email) ∧
    ((oauth2callback true stateA oraclesOk sessAlice storeBob).2.2
        (get_token_filename (some bobEmail)) = storeBob (get_token_filename (some bobEmail)) ∧
      (get_google_calendar_service true true sessAlice storeBob).store = storeBob ∧
      (logout_google sessAlice storeBob).2 = storeBob) :=
  ⟨by decide,
    C3_frame true true stateA oraclesOk sessAlice storeBob
      (get_token_filename (some bobEmail)) (by decide)⟩

/-! ## Claim C5 -/

/-- C5: a stored record whose granted scope set differs from the required
`SCOPES` is deleted by the next authorize call — which clears every token
file, in particular the stale one — before the redirect carrying the new
authorization URL is returned. -/
theorem C5_stale_record_deleted (freshState : Str) (sess : Session)
    (st : Store) (email : Str) (r : CredentialRecord)
    (hrec : st (get_token_filename (some email)) = some r)
    (hscopes : r.scopes ≠ SCOPES) :
    (authorize true freshState sess st).1 = .redirectToProvider freshState ∧
    (authorize true freshState sess st).2.2 (get_token_filename (some email)) = none := by
  refine ⟨rfl, ?_⟩
  simp [authorize, clear_old_tokens, isTokenFile_get_token_filename]

/-- Witness for C5 at the spec's scenario: alice's record grants only the
calendar scope while the app requires the full `SCOPES`; the next
authorize deletes it. -/
theorem C5_stale_record_deleted_witness :
    (storeStale (get_token_filename (some aliceEmail)) = some recStale ∧
      recStale.scopes ≠ SCOPES) ∧
    ((authorize true stateA sessAlice storeStale).1 = .redirectToProvider stateA ∧
      (authorize true stateA sessAlice storeStale).2.2
        (get_token_filename (some aliceEmail)) = none) :=
  ⟨⟨by decide, by decide⟩,
    C5_stale_record_deleted stateA sessAlice storeStale aliceEmail recStale
      (by decide) (by decide)⟩
